import Mathlib

/-!
Shallow embedding of the simulation core of the Clique repository
(`src/rust/src/lib.rs`): the phase/sub-phase clock (`GameTime`), the
outcome channels and their mux, queue items, the agent decision policy
(`Character::decide`) and the `Controller` orchestration
(`fulfill` / `finish` / `apply` / `schedule_item` / `process`).

Modelling conventions:
* Rust `i64` is modelled as `Int`.  Rust's `/` and `%` on `i64` truncate
  toward zero, which is `Int.tdiv` / `Int.tmod` in Lean; we use those
  where the source divides (`GameTime::season`).
* Rust `f64` is modelled as `ℚ` with exact arithmetic; the only float
  code is `Item::tick`'s wait countdown (a comparison and a subtraction).
* Interior mutability (`Cell`, `Rc<Cell<..>>`) becomes explicit state
  passing: `OutcomeChannel::check`, which mutates the shared `consumed`
  counter and returns `Some(self)`, becomes a pure function returning the
  updated channel; `fire`, which bumps `available`, returns the updated
  channel.
* Godot scene-graph effects (spawning `Traveler` actors, `stockpile.set`,
  `time_indicator.call("set_time", ..)`) are external collaborators.  A
  spawned traveler only ever `fire`s the channel it was handed, later;
  the channel *value* returned by `send_apple` is its channel argument
  unchanged, which is what we model.  The `set_time` UI call is modelled
  as the optional payload returned by `Controller.process`.
-/

namespace Clique

/-- `enum Personality { Cooperative, Greedy }`. -/
inductive Personality
  | Cooperative
  | Greedy
deriving DecidableEq, Repr

/-- `enum Task { Eat, Sleep, Work }`. -/
inductive Task
  | Eat
  | Sleep
  | Work
deriving DecidableEq, Repr

/-- `enum Phase { Predawn, Morning, Midday, Evening, Night }`. -/
inductive Phase
  | Predawn
  | Morning
  | Midday
  | Evening
  | Night
deriving DecidableEq, Repr

/-- `enum SubPhase { Commence, Progress, Complete, Tempo }`. -/
inductive SubPhase
  | Commence
  | Progress
  | Complete
  | Tempo
deriving DecidableEq, Repr

/-- `SubPhase::next` (lib.rs lines 91-100). -/
def SubPhase.next : SubPhase → SubPhase
  | .Commence => .Progress
  | .Progress => .Complete
  | .Complete => .Tempo
  | .Tempo => .Commence

/-- `Phase::next` (lib.rs lines 141-151). -/
def Phase.next : Phase → Phase
  | .Predawn => .Morning
  | .Morning => .Midday
  | .Midday => .Evening
  | .Evening => .Night
  | .Night => .Predawn

/-- `enum Season { Summer, Winter }`. -/
inductive Season
  | Summer
  | Winter
deriving DecidableEq, Repr

/-- `struct GameTime { day: i64, phase: Phase, sub: SubPhase }`. -/
structure GameTime where
  day : Int
  phase : Phase
  sub : SubPhase
deriving DecidableEq, Repr

/-- `GameTime::start` (lib.rs lines 114-120). -/
def GameTime.start : GameTime :=
  { day := 1, phase := Phase.Predawn, sub := SubPhase.Tempo }

/-- `GameTime::next` (lib.rs lines 122-130): step `sub`; if the new `sub`
is Commence, step `phase`; if the new `phase` is Predawn, increment `day`. -/
def GameTime.next (t : GameTime) : GameTime :=
  let sub := t.sub.next
  if sub = SubPhase.Commence then
    let phase := t.phase.next
    if phase = Phase.Predawn then
      { day := t.day + 1, phase := phase, sub := sub }
    else
      { day := t.day, phase := phase, sub := sub }
  else
    { day := t.day, phase := t.phase, sub := sub }

/-- `GameTime::season` (lib.rs lines 132-138): Winter iff
`(self.day / 5) % 4 == 3`, with Rust's truncating `i64` division and
remainder (`Int.tdiv` / `Int.tmod`). -/
def GameTime.season (t : GameTime) : Season :=
  if Int.tmod (Int.tdiv t.day 5) 4 = 3 then Season.Winter else Season.Summer

/-- `struct WorldView { time: &GameTime, apple_stock: i64 }`. -/
structure WorldView where
  time : GameTime
  apple_stock : Int

/-- The per-character core state: `struct Character` holds a Godot node,
a `Cell<Task>` and a `Personality`; the node only matters to the scene
graph (positions, name hash at creation), so the embedded state is the
cached task and the personality. -/
structure Character where
  task : Task
  personality : Personality
deriving DecidableEq, Repr

/-- `Character::decide` (lib.rs lines 52-72). -/
def Character.decide (c : Character) (view : WorldView) : Task :=
  match c.personality with
  | Personality.Greedy =>
    match view.time.phase with
    | Phase.Predawn | Phase.Night => Task.Sleep
    | _ => if view.apple_stock > 0 then Task.Eat else Task.Work
  | Personality.Cooperative =>
    match view.time.phase with
    | Phase.Predawn | Phase.Night => Task.Sleep
    | Phase.Morning | Phase.Evening => Task.Work
    | Phase.Midday => Task.Eat

/-- `enum Outcome { StatusQuo, Apples { delta: i64 } }`. -/
inductive Outcome
  | StatusQuo
  | Apples (delta : Int)
deriving DecidableEq, Repr

/-- `struct OutcomeChannel { cell: Rc<Vec<Outcome>>, consumed: Rc<Cell<usize>>,
available: Rc<Cell<usize>> }` — the counting-gate channel: a fixed outcome
list, a consumer cursor and an externally bumped availability counter. -/
structure OutcomeChannel where
  cell : List Outcome
  consumed : Nat
  available : Nat
deriving DecidableEq, Repr

/-- `OutcomeChannel::new(events, start)` (lib.rs lines 192-198). -/
def OutcomeChannel.new (events : List Outcome) (start : Nat) : OutcomeChannel :=
  { cell := events, consumed := 0, available := start }

/-- `OutcomeChannel::check` (lib.rs lines 200-212): done when the cursor has
reached the end of the list; otherwise consume the next outcome when one is
available, else report pending.  The mutation of `consumed` is returned as
the updated channel in the second component. -/
def OutcomeChannel.check (c : OutcomeChannel) : Option Outcome × Option OutcomeChannel :=
  if c.consumed ≥ c.cell.length then
    (none, none)
  else if c.consumed < c.available then
    (c.cell.get? c.consumed, some { c with consumed := c.consumed + 1 })
  else if c.available < c.cell.length then
    (none, some c)
  else
    (none, none)

/-- `OutcomeChannel::fire` (lib.rs lines 214-216): bump `available`. -/
def OutcomeChannel.fire (c : OutcomeChannel) : OutcomeChannel :=
  { c with available := c.available + 1 }

/-- `OutcomeChannel::immediate` (lib.rs lines 218-220). -/
def OutcomeChannel.immediate (outcome : Outcome) : OutcomeChannel :=
  OutcomeChannel.new [outcome] 1

/-- `OutcomeChannel::delayed` (lib.rs lines 222-224). -/
def OutcomeChannel.delayed (outcome : Outcome) : OutcomeChannel :=
  OutcomeChannel.new [outcome] 0

/-- `OutcomeChannel::delayed_noop` (lib.rs lines 226-228). -/
def OutcomeChannel.delayedNoop : OutcomeChannel :=
  OutcomeChannel.new [Outcome.StatusQuo] 0

/-- `OutcomeChannel::immediate_noop` (lib.rs lines 230-232). -/
def OutcomeChannel.immediateNoop : OutcomeChannel :=
  OutcomeChannel.immediate Outcome.StatusQuo

/-- `struct OutcomeMux { channels: Vec<OutcomeChannel> }`. -/
structure OutcomeMux where
  channels : List OutcomeChannel
deriving DecidableEq, Repr

/-- `OutcomeMux::tick` (lib.rs lines 240-258): check every channel in order,
collecting the resolved outcomes and the still-live channels; the mux is
finished when no channel remains. -/
def OutcomeMux.tick (m : OutcomeMux) : List Outcome × Option OutcomeMux :=
  let done := m.channels.filterMap (fun ch => ch.check.1)
  let remaining := m.channels.filterMap (fun ch => ch.check.2)
  (done, if remaining.isEmpty then none else some { channels := remaining })

/-- `enum Item { Wait { seconds: f64 }, Play(OutcomeMux) }` (`f64` as `ℚ`). -/
inductive Item
  | Wait (seconds : ℚ)
  | Play (mux : OutcomeMux)
deriving DecidableEq, Repr

/-- `Item::tick` (lib.rs lines 272-292): a Wait continues with the remaining
time while `seconds >= delta`, else finishes; a Play delegates to the mux
(ignoring `delta`) and wraps any surviving mux back into a Play. -/
def Item.tick : Item → ℚ → List Outcome × Option Item
  | Item.Wait seconds, delta =>
    if seconds ≥ delta then
      ([], some (Item.Wait (seconds - delta)))
    else
      ([], none)
  | Item.Play outcomes, _ =>
    let r := outcomes.tick
    (r.1, r.2.map Item.Play)

/-- The core state of `struct Controller`: game time, the item queue
(`VecDeque<Item>` as a list, front first), the character roster and the
apple stock.  The Godot handles (`time_indicator`, `stockpile`,
`apple_tree`, `base`) are external collaborators. -/
structure Controller where
  time : GameTime
  queue : List Item
  characters : List Character
  apples : Int
deriving DecidableEq, Repr

/-- `Controller::view` (lib.rs lines 467-472). -/
def Controller.view (c : Controller) : WorldView :=
  { time := c.time, apple_stock := c.apples }

/-- Channel value returned by `Controller::eat_apple` (lib.rs lines 449-456):
`send_apple` returns its channel argument unchanged (the spawned traveler
fires it later, externally), so the value is
`OutcomeChannel::new(vec![Apples{-1}, StatusQuo], 1)`. -/
def eatAppleChannel : OutcomeChannel :=
  OutcomeChannel.new [Outcome.Apples (-1), Outcome.StatusQuo] 1

/-- Channel value returned by `Controller::pick_apple` (lib.rs lines 439-447):
`send_apple` applied to `OutcomeChannel::delayed_noop()`. -/
def pickAppleChannel : OutcomeChannel :=
  OutcomeChannel.delayedNoop

/-- Channel value returned by `Controller::store_apple` (lib.rs lines 458-465):
`send_apple` applied to `OutcomeChannel::delayed(Apples{+1})`. -/
def storeAppleChannel : OutcomeChannel :=
  OutcomeChannel.delayed (Outcome.Apples 1)

/-- `Controller::fulfill` (lib.rs lines 394-400).  The channel value depends
only on the task: the character argument only feeds scene-graph positions. -/
def Controller.fulfill (task : Task) : OutcomeChannel :=
  match task with
  | Task.Eat => eatAppleChannel
  | Task.Sleep => OutcomeChannel.immediateNoop
  | Task.Work => pickAppleChannel

/-- `Controller::finish` (lib.rs lines 402-411): Eat and Sleep finish with an
immediate no-op; Work deposits (`store_apple`) in Summer and is an immediate
no-op in Winter. -/
def Controller.finish (c : Controller) (task : Task) : OutcomeChannel :=
  match task with
  | Task.Eat => OutcomeChannel.immediateNoop
  | Task.Sleep => OutcomeChannel.immediateNoop
  | Task.Work =>
    match c.time.season with
    | Season.Summer => storeAppleChannel
    | Season.Winter => OutcomeChannel.immediateNoop

/-- `Controller::apply` (lib.rs lines 413-420): mutate `apples` by the
outcome's delta (StatusQuo leaves it unchanged).  The `stockpile.set` push
is an external UI effect. -/
def Controller.apply (c : Controller) (o : Outcome) : Controller :=
  match o with
  | Outcome.StatusQuo => c
  | Outcome.Apples delta => { c with apples := c.apples + delta }

/-- `Controller::character_actions` (lib.rs lines 474-482): for each
character, decide a task from the current view, cache it on the character
(`c.task.set(task)`), and collect `fulfill`'s channel.  Each loop iteration
touches only its own character and `decide` is pure, so the single Rust pass
is the pair of maps below; the updated roster is returned alongside the
item to make the `Cell` mutation explicit. -/
def Controller.characterActions (c : Controller) : Item × List Character :=
  (Item.Play { channels := c.characters.map (fun ch => Controller.fulfill (ch.decide c.view)) },
   c.characters.map (fun ch => { ch with task := ch.decide c.view }))

/-- `Controller::character_cleanup` (lib.rs lines 484-491): for each
character, `finish` keyed by the cached task (`c.task.get()`), without
re-deciding. -/
def Controller.characterCleanup (c : Controller) : Item :=
  Item.Play { channels := c.characters.map (fun ch => c.finish ch.task) }

/-- `Controller::schedule_item` (lib.rs lines 493-499).  The roster is
returned alongside the item because the Commence branch caches each
character's decided task. -/
def Controller.scheduleItem (c : Controller) : Item × List Character :=
  match c.time.sub with
  | SubPhase.Commence => c.characterActions
  | SubPhase.Complete => (c.characterCleanup, c.characters)
  | _ => (Item.Wait (1/2), c.characters)

/-- `Controller::process` (lib.rs lines 504-526), one frame: pop the queue's
front; if empty, schedule the next item (push_back); otherwise tick it,
apply every resolved outcome in order, push a continuation back to the
front or advance the clock, and issue `set_time(phase, day)` to the UI —
modelled as the optional second component, carrying the phase and day read
*after* the possible clock advance. -/
def Controller.process (c : Controller) (delta : ℚ) : Controller × Option (Phase × Int) :=
  match c.queue with
  | [] =>
    let s := c.scheduleItem
    ({ c with queue := [s.1], characters := s.2 }, none)
  | item :: rest =>
    let r := item.tick delta
    let c1 := r.1.foldl Controller.apply { c with queue := rest }
    let c2 :=
      match r.2 with
      | some nxt => { c1 with queue := nxt :: c1.queue }
      | none => { c1 with time := c1.time.next }
    (c2, some (c2.time.phase, c2.time.day))

/-! ## Claim theorems -/

/-- C1: PhaseClock contract — `advance`/`next` steps `sub` to its cyclic
successor; exactly when the new `sub` is Commence it steps `phase` to its
cyclic successor (otherwise `phase` is unchanged); exactly when that also
lands `phase` on Predawn it increments `day` by 1 (otherwise `day` is
unchanged); and the start state is day 1, Predawn, Tempo. -/
theorem C1_phase_clock_contract (t : GameTime) :
    t.next.sub = t.sub.next ∧
    (t.next.sub = SubPhase.Commence → t.next.phase = t.phase.next) ∧
    (t.next.sub ≠ SubPhase.Commence → t.next.phase = t.phase) ∧
    (t.next.sub = SubPhase.Commence ∧ t.next.phase = Phase.Predawn →
      t.next.day = t.day + 1) ∧
    (t.next.sub ≠ SubPhase.Commence ∨ t.next.phase ≠ Phase.Predawn →
      t.next.day = t.day) ∧
    GameTime.start = { day := 1, phase := Phase.Predawn, sub := SubPhase.Tempo } := by
  obtain ⟨d, ph, sb⟩ := t
  refine ⟨?_, ?_, ?_, ?_, ?_, rfl⟩ <;>
    cases sb <;> cases ph <;>
      simp [GameTime.next, SubPhase.next, Phase.next]

/-- Witness for C1 at the start state: its successor has the stepped
sub-phase, the stepped phase (the new sub is Commence), and an unchanged
day (the new phase is Morning, not Predawn). -/
theorem C1_phase_clock_contract_witness :
    GameTime.start.next.sub = GameTime.start.sub.next ∧
    GameTime.start.next.phase = GameTime.start.phase.next ∧
    GameTime.start.next.day = GameTime.start.day :=
  ⟨(C1_phase_clock_contract GameTime.start).1,
   (C1_phase_clock_contract GameTime.start).2.1 (by decide),
   (C1_phase_clock_contract GameTime.start).2.2.2.2.1 (Or.inr (by decide))⟩

/-- C2 counterexample: the channel is *not* single-assignment-read.  Take
the channel `delayed(Apples{+1})` after one `fire`: the first poll yields
`Apples{+1}` (and consumes it), and the very next poll yields no outcome
at all — so it is false that after one fire every subsequent poll yields
the fired value. -/
theorem C2_counterexample_second_poll :
    ((OutcomeChannel.delayed (Outcome.Apples 1)).fire).check =
      (some (Outcome.Apples 1),
       some { cell := [Outcome.Apples 1], consumed := 1, available := 1 }) ∧
    (OutcomeChannel.check
        { cell := [Outcome.Apples 1], consumed := 1, available := 1 }).1 ≠
      some (Outcome.Apples 1) ∧
    (OutcomeChannel.check
        { cell := [Outcome.Apples 1], consumed := 1, available := 1 }) =
      (none, none) := by
  decide

/-- C2 amended: the channel is a counting gate over a fixed outcome list.
For a channel created unfired over one outcome `X` (`delayed X`): every
poll before `fire` signals pending (no outcome, channel unchanged); after
one `fire`, the next poll yields `X` exactly once, consuming it, and every
later poll signals exhaustion (no outcome, no continuation); a second
`fire` changes neither the consumed value nor what later polls yield. -/
theorem C2_counting_gate_channel (X : Outcome) :
    (OutcomeChannel.delayed X).check = (none, some (OutcomeChannel.delayed X)) ∧
    ((OutcomeChannel.delayed X).fire).check =
      (some X, some { cell := [X], consumed := 1, available := 1 }) ∧
    OutcomeChannel.check { cell := [X], consumed := 1, available := 1 } =
      (none, none) ∧
    ((OutcomeChannel.delayed X).fire.fire).check =
      (some X, some { cell := [X], consumed := 1, available := 2 }) ∧
    OutcomeChannel.check { cell := [X], consumed := 1, available := 2 } =
      (none, none) := by
  refine ⟨?_, ?_, ?_, ?_, ?_⟩ <;>
    simp [OutcomeChannel.delayed, OutcomeChannel.new, OutcomeChannel.fire,
      OutcomeChannel.check, List.get?]

/-- C3 counterexample: `finish` for an Eat task does *not* return the
consumption delta `Apples{-1}`: it returns the immediate no-op channel,
whose outcome list is exactly `[StatusQuo]`. -/
theorem C3_counterexample_finish_eat :
    (Controller.finish
        { time := GameTime.start, queue := [], characters := [], apples := 0 }
        Task.Eat).cell = [Outcome.StatusQuo] ∧
    Outcome.Apples (-1) ∉
      (Controller.finish
        { time := GameTime.start, queue := [], characters := [], apples := 0 }
        Task.Eat).cell := by
  decide

/-- C3 amended: `finish(agent, task)` returns the deposit channel
`delayed(Apples{+1})` when the task is Work and the season is Summer (an
immediate StatusQuo channel in Winter), and an immediate StatusQuo channel
when the task is Eat or Sleep; the Eat consumption delta `Apples{-1}` is
instead carried by the `fulfill` channel created at Commence
(`eat_apple`), whose first poll yields `Apples{-1}`. -/
theorem C3_finish_channels (c : Controller) :
    (c.time.season = Season.Summer →
      c.finish Task.Work = OutcomeChannel.delayed (Outcome.Apples 1)) ∧
    (c.time.season = Season.Winter →
      c.finish Task.Work = OutcomeChannel.immediateNoop) ∧
    c.finish Task.Eat = OutcomeChannel.immediateNoop ∧
    c.finish Task.Sleep = OutcomeChannel.immediateNoop ∧
    Controller.fulfill Task.Eat = eatAppleChannel ∧
    eatAppleChannel.check.1 = some (Outcome.Apples (-1)) := by
  refine ⟨fun h => ?_, fun h => ?_, rfl, rfl, rfl, rfl⟩ <;>
    simp [Controller.finish, h, storeAppleChannel]

/-- Witness for C3 at a Summer day (day 1) and a Winter day (day 15). -/
theorem C3_finish_channels_witness :
    ((Controller.mk ⟨1, Phase.Predawn, SubPhase.Tempo⟩ [] [] 0).time.season =
        Season.Summer ∧
      (Controller.mk ⟨1, Phase.Predawn, SubPhase.Tempo⟩ [] [] 0).finish Task.Work =
        OutcomeChannel.delayed (Outcome.Apples 1)) ∧
    ((Controller.mk ⟨15, Phase.Predawn, SubPhase.Tempo⟩ [] [] 0).time.season =
        Season.Winter ∧
      (Controller.mk ⟨15, Phase.Predawn, SubPhase.Tempo⟩ [] [] 0).finish Task.Work =
        OutcomeChannel.immediateNoop) :=
  ⟨⟨by decide,
    (C3_finish_channels (Controller.mk ⟨1, Phase.Predawn, SubPhase.Tempo⟩ [] [] 0)).1
      (by decide)⟩,
   ⟨by decide,
    (C3_finish_channels (Controller.mk ⟨15, Phase.Predawn, SubPhase.Tempo⟩ [] [] 0)).2.1
      (by decide)⟩⟩

/-- C4: with the queue empty, the next Item is determined solely by the
current SubPhase — at Commence a Play Item bundling every character's
chosen-action channel, with each character's decided Task recorded on the
character at that moment; at Complete a Play Item bundling every
character's completion channel keyed by the Task that character previously
cached (not re-decided); at Progress or Tempo a Wait Item with the fixed
pacing duration 0.5. -/
theorem C4_schedule_item (c : Controller) :
    (c.time.sub = SubPhase.Commence →
      c.scheduleItem =
        (Item.Play
          { channels :=
              c.characters.map (fun ch => Controller.fulfill (ch.decide c.view)) },
         c.characters.map (fun ch => { ch with task := ch.decide c.view }))) ∧
    (c.time.sub = SubPhase.Complete →
      c.scheduleItem =
        (Item.Play { channels := c.characters.map (fun ch => c.finish ch.task) },
         c.characters)) ∧
    (c.time.sub = SubPhase.Progress ∨ c.time.sub = SubPhase.Tempo →
      c.scheduleItem = (Item.Wait (1/2), c.characters)) := by
  refine ⟨fun h => ?_, fun h => ?_, fun h => ?_⟩
  · simp [Controller.scheduleItem, h, Controller.characterActions]
  · simp [Controller.scheduleItem, h, Controller.characterCleanup]
  · rcases h with h | h <;> simp [Controller.scheduleItem, h]

/-- Witness for C4 at concrete controllers in each sub-phase, with a
two-character roster. -/
theorem C4_schedule_item_witness :
    ((Controller.mk ⟨1, Phase.Morning, SubPhase.Commence⟩ []
        [⟨Task.Sleep, Personality.Cooperative⟩, ⟨Task.Sleep, Personality.Greedy⟩] 0).time.sub =
        SubPhase.Commence ∧
      (Controller.mk ⟨1, Phase.Morning, SubPhase.Commence⟩ []
        [⟨Task.Sleep, Personality.Cooperative⟩, ⟨Task.Sleep, Personality.Greedy⟩] 0).scheduleItem =
        (Item.Play
          { channels :=
              (Controller.mk ⟨1, Phase.Morning, SubPhase.Commence⟩ []
                [⟨Task.Sleep, Personality.Cooperative⟩, ⟨Task.Sleep, Personality.Greedy⟩] 0).characters.map
                (fun ch =>
                  Controller.fulfill
                    (ch.decide
                      (Controller.mk ⟨1, Phase.Morning, SubPhase.Commence⟩ []
                        [⟨Task.Sleep, Personality.Cooperative⟩, ⟨Task.Sleep, Personality.Greedy⟩] 0).view)) },
         (Controller.mk ⟨1, Phase.Morning, SubPhase.Commence⟩ []
            [⟨Task.Sleep, Personality.Cooperative⟩, ⟨Task.Sleep, Personality.Greedy⟩] 0).characters.map
            (fun ch =>
              { ch with
                task :=
                  ch.decide
                    (Controller.mk ⟨1, Phase.Morning, SubPhase.Commence⟩ []
                      [⟨Task.Sleep, Personality.Cooperative⟩, ⟨Task.Sleep, Personality.Greedy⟩] 0).view }))) ∧
    ((Controller.mk ⟨1, Phase.Morning, SubPhase.Progress⟩ [] [] 0).time.sub =
        SubPhase.Progress ∨
      (Controller.mk ⟨1, Phase.Morning, SubPhase.Progress⟩ [] [] 0).time.sub =
        SubPhase.Tempo) ∧
    (Controller.mk ⟨1, Phase.Morning, SubPhase.Progress⟩ [] [] 0).scheduleItem =
      (Item.Wait (1/2),
       (Controller.mk ⟨1, Phase.Morning, SubPhase.Progress⟩ [] [] 0).characters) :=
  ⟨⟨rfl,
    (C4_schedule_item
      (Controller.mk ⟨1, Phase.Morning, SubPhase.Commence⟩ []
        [⟨Task.Sleep, Personality.Cooperative⟩, ⟨Task.Sleep, Personality.Greedy⟩] 0)).1 rfl⟩,
   Or.inl rfl,
   (C4_schedule_item
     (Controller.mk ⟨1, Phase.Morning, SubPhase.Progress⟩ [] [] 0)).2.2 (Or.inl rfl)⟩

/-- C5: the decision policy is a total function (a Lean `def`, defined for
every Phase and Personality): a Cooperative character sleeps at Predawn and
Night, works at Morning and Evening, eats at Midday; a Greedy character
sleeps at Predawn and Night and otherwise eats exactly when the observed
apple stock is strictly positive, else works. -/
theorem C5_decide_policy (day : Int) (sub : SubPhase) (stock : Int) (t0 : Task) :
    (Character.mk t0 Personality.Cooperative).decide
        ⟨⟨day, Phase.Predawn, sub⟩, stock⟩ = Task.Sleep ∧
    (Character.mk t0 Personality.Cooperative).decide
        ⟨⟨day, Phase.Night, sub⟩, stock⟩ = Task.Sleep ∧
    (Character.mk t0 Personality.Cooperative).decide
        ⟨⟨day, Phase.Morning, sub⟩, stock⟩ = Task.Work ∧
    (Character.mk t0 Personality.Cooperative).decide
        ⟨⟨day, Phase.Evening, sub⟩, stock⟩ = Task.Work ∧
    (Character.mk t0 Personality.Cooperative).decide
        ⟨⟨day, Phase.Midday, sub⟩, stock⟩ = Task.Eat ∧
    (Character.mk t0 Personality.Greedy).decide
        ⟨⟨day, Phase.Predawn, sub⟩, stock⟩ = Task.Sleep ∧
    (Character.mk t0 Personality.Greedy).decide
        ⟨⟨day, Phase.Night, sub⟩, stock⟩ = Task.Sleep ∧
    (Character.mk t0 Personality.Greedy).decide
        ⟨⟨day, Phase.Morning, sub⟩, stock⟩ =
      (if stock > 0 then Task.Eat else Task.Work) ∧
    (Character.mk t0 Personality.Greedy).decide
        ⟨⟨day, Phase.Midday, sub⟩, stock⟩ =
      (if stock > 0 then Task.Eat else Task.Work) ∧
    (Character.mk t0 Personality.Greedy).decide
        ⟨⟨day, Phase.Evening, sub⟩, stock⟩ =
      (if stock > 0 then Task.Eat else Task.Work) :=
  ⟨rfl, rfl, rfl, rfl, rfl, rfl, rfl, rfl, rfl, rfl⟩

/-- C6 counterexample: 20 advances from the start state return to the
start sub and phase, but increment day by exactly 1 (to day 2), not by 4. -/
theorem C6_counterexample_twenty_advances :
    GameTime.next^[20] GameTime.start =
      { day := 2, phase := Phase.Predawn, sub := SubPhase.Tempo } ∧
    ¬ (GameTime.next^[20] GameTime.start).day = GameTime.start.day + 4 := by
  decide

/-- C6 amended: from any state, 4 advances return `sub` to its starting
value and advance `phase` by exactly one step; 20 advances from the start
state return to the exact starting sub and phase and increment `day` by
exactly 1 (one full Phase cycle contains exactly one transition into
Predawn). -/
theorem C6_advance_counting (t : GameTime) :
    t.next.next.next.next.sub = t.sub ∧
    t.next.next.next.next.phase = t.phase.next ∧
    GameTime.next^[20] GameTime.start =
      { day := GameTime.start.day + 1,
        phase := GameTime.start.phase,
        sub := GameTime.start.sub } := by
  obtain ⟨d, ph, sb⟩ := t
  refine ⟨?_, ?_, by decide⟩ <;>
    cases sb <;> cases ph <;>
      simp [GameTime.next, SubPhase.next, Phase.next]

/-- C7 counterexample: the `set_time` UI call is *not* issued only on the
frames an Item finishes.  Ticking a half-second Wait Item by one tenth of
a second leaves the Item unfinished (the queue still holds its
continuation and the clock has not advanced), yet `set_time` is issued on
that frame. -/
theorem C7_counterexample_set_time_every_tick :
    ((Controller.mk ⟨1, Phase.Predawn, SubPhase.Progress⟩ [Item.Wait (1/2)] [] 0).process
        (1/10)).2 = some (Phase.Predawn, 1) ∧
    ((Controller.mk ⟨1, Phase.Predawn, SubPhase.Progress⟩ [Item.Wait (1/2)] [] 0).process
        (1/10)).1.queue ≠ [] ∧
    ((Controller.mk ⟨1, Phase.Predawn, SubPhase.Progress⟩ [Item.Wait (1/2)] [] 0).process
        (1/10)).1.time = ⟨1, Phase.Predawn, SubPhase.Progress⟩ := by
  norm_num [Controller.process, Item.tick]

/-- C7 amended: the Dispatcher issues `set_time` exactly once per frame
that ticks an Item — every frame on which the queue is nonempty, whether
or not the Item finishes — carrying the phase and day as they stand after
any clock advance of that frame; it issues no `set_time` on the frames
that only schedule the next Item (queue empty). -/
theorem C7_set_time_per_frame (c : Controller) (delta : ℚ) :
    ((c.process delta).2.isSome ↔ c.queue ≠ []) ∧
    (c.queue = [] → (c.process delta).2 = none) ∧
    (c.queue ≠ [] →
      (c.process delta).2 =
        some ((c.process delta).1.time.phase, (c.process delta).1.time.day)) := by
  cases hq : c.queue with
  | nil => simp [Controller.process, hq]
  | cons item rest =>
    refine ⟨by simp [Controller.process, hq], by simp [hq], fun _ => ?_⟩
    simp [Controller.process, hq]

/-- Witness for C7 on a frame with a nonempty queue. -/
theorem C7_set_time_per_frame_witness :
    (Controller.mk ⟨1, Phase.Predawn, SubPhase.Progress⟩ [Item.Wait (1/2)] [] 0).queue ≠ [] ∧
    ((Controller.mk ⟨1, Phase.Predawn, SubPhase.Progress⟩ [Item.Wait (1/2)] [] 0).process
        (1/10)).2 =
      some
        (((Controller.mk ⟨1, Phase.Predawn, SubPhase.Progress⟩ [Item.Wait (1/2)] [] 0).process
            (1/10)).1.time.phase,
         ((Controller.mk ⟨1, Phase.Predawn, SubPhase.Progress⟩ [Item.Wait (1/2)] [] 0).process
            (1/10)).1.time.day) :=
  ⟨List.cons_ne_nil _ _,
   (C7_set_time_per_frame
      (Controller.mk ⟨1, Phase.Predawn, SubPhase.Progress⟩ [Item.Wait (1/2)] [] 0)
      (1/10)).2.2 (List.cons_ne_nil _ _)⟩

/-- C8: a Wait Item's tick resolves no Outcomes at any step; while
`remaining ≥ Δt` the continuation is `Wait{remaining − Δt}`, and the Item
finishes (no continuation) exactly on the frame `remaining − Δt` would
cross below zero (`remaining < Δt`); concretely, `Wait{1}.tick(0.4)`
then `.tick(0.4)` then `.tick(0.4)` continues on the first two calls and
finishes exactly on the third (0.4 is 2/5 in the exact-rational model of
`f64`; the same comparisons hold under `f64` rounding). -/
theorem C8_wait_semantics (s delta : ℚ) :
    ((Item.Wait s).tick delta).1 = [] ∧
    (s ≥ delta → (Item.Wait s).tick delta = ([], some (Item.Wait (s - delta)))) ∧
    (s < delta → (Item.Wait s).tick delta = ([], none)) ∧
    (Item.Wait 1).tick (2/5) = ([], some (Item.Wait (3/5))) ∧
    (Item.Wait (3/5)).tick (2/5) = ([], some (Item.Wait (1/5))) ∧
    (Item.Wait (1/5)).tick (2/5) = ([], none) := by
  refine ⟨?_, fun h => ?_, fun h => ?_, ?_, ?_, ?_⟩
  · by_cases h : s ≥ delta <;> simp [Item.tick, h]
  · simp [Item.tick, h]
  · simp [Item.tick, not_le.mpr h]
  · norm_num [Item.tick]
  · norm_num [Item.tick]
  · norm_num [Item.tick]

/-- Witness for C8, discharging the continuing hypothesis at
`Wait{1}.tick(2/5)` and the finishing hypothesis at `Wait{1/5}.tick(2/5)`. -/
theorem C8_wait_semantics_witness :
    ((1 : ℚ) ≥ 2/5 ∧
      (Item.Wait 1).tick (2/5) = ([], some (Item.Wait (1 - 2/5)))) ∧
    ((1 : ℚ)/5 < 2/5 ∧ (Item.Wait (1/5)).tick (2/5) = ([], none)) :=
  ⟨⟨by norm_num, (C8_wait_semantics 1 (2/5)).2.1 (by norm_num)⟩,
   ⟨by norm_num, (C8_wait_semantics (1/5) (2/5)).2.2.1 (by norm_num)⟩⟩

/-- C9: a Play Item with zero channels — as `schedule_item` builds at
Commence when the roster is empty — finishes immediately: its very first
tick returns no Outcomes and no continuation. -/
theorem C9_empty_play_vacuous (delta : ℚ) (c : Controller)
    (hroster : c.characters = []) (hsub : c.time.sub = SubPhase.Commence) :
    c.scheduleItem.1 = Item.Play { channels := [] } ∧
    (Item.Play { channels := [] }).tick delta = ([], none) := by
  constructor
  · simp [Controller.scheduleItem, hsub, Controller.characterActions, hroster]
  · rfl

/-- Witness for C9 with an empty roster at Commence and a 0.7-second frame. -/
theorem C9_empty_play_vacuous_witness :
    (Controller.mk ⟨1, Phase.Morning, SubPhase.Commence⟩ [] [] 0).characters = [] ∧
    (Controller.mk ⟨1, Phase.Morning, SubPhase.Commence⟩ [] [] 0).time.sub =
      SubPhase.Commence ∧
    ((Controller.mk ⟨1, Phase.Morning, SubPhase.Commence⟩ [] [] 0).scheduleItem.1 =
        Item.Play { channels := [] } ∧
      (Item.Play { channels := [] }).tick (7/10) = ([], none)) :=
  ⟨rfl, rfl,
   C9_empty_play_vacuous (7/10)
     (Controller.mk ⟨1, Phase.Morning, SubPhase.Commence⟩ [] [] 0) rfl rfl⟩

/-- C10: the Season is derived from the day counter — Winter exactly when
`(day / 5) % 4 = 3` under Rust's truncating `i64` division — and `finish`
for a Work task returns the deposit channel `delayed(Apples{+1})` only in
Summer; in Winter it returns the immediately-resolved StatusQuo channel
(its first poll already yields StatusQuo without any fire), and applying
StatusQuo leaves the apple stock unchanged, so completed Work never
credits the stock on Winter days. -/
theorem C10_seasonal_deposit_gate (c : Controller) :
    (c.time.season = Season.Winter ↔ Int.tmod (Int.tdiv c.time.day 5) 4 = 3) ∧
    (c.time.season = Season.Summer →
      c.finish Task.Work = OutcomeChannel.delayed (Outcome.Apples 1)) ∧
    (c.time.season = Season.Winter →
      c.finish Task.Work = OutcomeChannel.immediate Outcome.StatusQuo) ∧
    (OutcomeChannel.immediate Outcome.StatusQuo).check =
      (some Outcome.StatusQuo,
       some { cell := [Outcome.StatusQuo], consumed := 1, available := 1 }) ∧
    c.apply Outcome.StatusQuo = c := by
  refine ⟨?_, fun h => ?_, fun h => ?_, rfl, rfl⟩
  · by_cases hc : Int.tmod (Int.tdiv c.time.day 5) 4 = 3 <;>
      simp [GameTime.season, hc]
  · simp [Controller.finish, h, storeAppleChannel]
  · simp [Controller.finish, h, OutcomeChannel.immediateNoop]

/-- Witness for C10 at a Summer day (day 1) and a Winter day (day 15). -/
theorem C10_seasonal_deposit_gate_witness :
    ((Controller.mk ⟨1, Phase.Midday, SubPhase.Complete⟩ [] [] 0).time.season =
        Season.Summer ∧
      (Controller.mk ⟨1, Phase.Midday, SubPhase.Complete⟩ [] [] 0).finish Task.Work =
        OutcomeChannel.delayed (Outcome.Apples 1)) ∧
    ((Controller.mk ⟨15, Phase.Midday, SubPhase.Complete⟩ [] [] 0).time.season =
        Season.Winter ∧
      (Controller.mk ⟨15, Phase.Midday, SubPhase.Complete⟩ [] [] 0).finish Task.Work =
        OutcomeChannel.immediate Outcome.StatusQuo) :=
  ⟨⟨by decide,
    (C10_seasonal_deposit_gate
      (Controller.mk ⟨1, Phase.Midday, SubPhase.Complete⟩ [] [] 0)).2.1 (by decide)⟩,
   ⟨by decide,
    (C10_seasonal_deposit_gate
      (Controller.mk ⟨15, Phase.Midday, SubPhase.Complete⟩ [] [] 0)).2.2.1 (by decide)⟩⟩

end Clique
